import Mathlib

/-!
Verification of the cosmos star-catalog visualization
(`src/cosmos-visualization.tsx`).

The numeric parts of the component are embedded shallowly:
JavaScript numbers are modelled as rationals (`ℚ`) where the code only
performs field arithmetic and comparisons, and as reals (`ℝ`) where the
code calls trigonometric functions.  Calls to `Math.random()` are
modelled by passing the drawn values explicitly (as a stream
`g : ℕ → ℚ` when a loop draws many values, or as extra arguments for a
fixed number of draws).  Fallible operations (reading `data.json`,
`JSON.parse`, the shape dispatch) are modelled by an explicit input type
describing the outcome of the read, so the loader is a total function.
-/

namespace Cosmos

/-- RGB colour triple, as produced by `new THREE.Color(r, g, b)`. -/
structure Color where
  r : ℚ
  g : ℚ
  b : ℚ
deriving DecidableEq

/-- The `StarData` record interface (lines 4-16 of the source).
All fields are optional.  The `id` field may be a string or a number. -/
structure StarData where
  id : Option (ℚ ⊕ String) := none
  name : Option String := none
  ra : Option ℚ := none
  dec : Option ℚ := none
  mag : Option ℚ := none
  bv : Option ℚ := none
  distance : Option ℚ := none
  x : Option ℚ := none
  y : Option ℚ := none
  z : Option ℚ := none
  spectralClass : Option String := none
deriving DecidableEq

/-- `getStarColor` (source lines 84-120).  The B-V branch is a six-band
threshold lookup; the spectral-class branch keys on the uppercased first
character (JavaScript treats the empty string as falsy, so it falls
through to the default); the default branch draws three random channel
jitters, passed here as `r1 r2 r3`. -/
def getStarColor (bv : Option ℚ) (spectralClass : Option String)
    (r1 r2 r3 : ℚ) : Color :=
  match bv with
  | some v =>
    if v < -0.4 then ⟨0.6, 0.8, 1.0⟩
    else if v < 0 then ⟨0.8, 0.9, 1.0⟩
    else if v < 0.5 then ⟨1.0, 1.0, 1.0⟩
    else if v < 1.0 then ⟨1.0, 1.0, 0.7⟩
    else if v < 1.5 then ⟨1.0, 0.7, 0.4⟩
    else ⟨1.0, 0.5, 0.3⟩
  | none =>
    match spectralClass with
    | some s =>
      if s = "" then
        ⟨0.8 + r1 * 0.2, 0.8 + r2 * 0.2, 0.8 + r3 * 0.2⟩
      else
        match (s.toList.headD ' ').toUpper with
        | 'O' => ⟨0.6, 0.8, 1.0⟩
        | 'B' => ⟨0.8, 0.9, 1.0⟩
        | 'A' => ⟨1.0, 1.0, 1.0⟩
        | 'F' => ⟨1.0, 1.0, 0.9⟩
        | 'G' => ⟨1.0, 1.0, 0.7⟩
        | 'K' => ⟨1.0, 0.7, 0.4⟩
        | 'M' => ⟨1.0, 0.5, 0.3⟩
        | _ => ⟨1.0, 1.0, 1.0⟩
    | none =>
      ⟨0.8 + r1 * 0.2, 0.8 + r2 * 0.2, 0.8 + r3 * 0.2⟩

/-- `magnitudeToSize` (source lines 123-130). -/
def magnitudeToSize (mag : Option ℚ) : ℚ :=
  match mag with
  | none => 1.0
  | some m => max 0.5 (3.0 - (m + 2) * 0.5)

/-- `astronomicalToCartesian` (source lines 70-81).  The intermediate
values `raRad = ra * 15 * (π / 180)` and `decRad = dec * (π / 180)` are
inlined. -/
noncomputable def astronomicalToCartesian (ra dec distance : ℝ) : ℝ × ℝ × ℝ :=
  (distance * Real.cos (dec * (Real.pi / 180)) * Real.cos (ra * 15 * (Real.pi / 180)),
   distance * Real.sin (dec * (Real.pi / 180)),
   distance * Real.cos (dec * (Real.pi / 180)) * Real.sin (ra * 15 * (Real.pi / 180)))

/-- The ten hard-coded famous stars (source lines 137-148). -/
def famousStars : List StarData := [
  { name := some "Sirius", ra := some 6.75, dec := some (-16.72), mag := some (-1.46), bv := some 0.00, spectralClass := some "A1V" },
  { name := some "Canopus", ra := some 6.4, dec := some (-52.7), mag := some (-0.74), bv := some 0.15, spectralClass := some "A9II" },
  { name := some "Arcturus", ra := some 14.26, dec := some 19.18, mag := some (-0.05), bv := some 1.23, spectralClass := some "K1.5III" },
  { name := some "Vega", ra := some 18.62, dec := some 38.78, mag := some 0.03, bv := some 0.00, spectralClass := some "A0V" },
  { name := some "Capella", ra := some 5.28, dec := some 45.99, mag := some 0.08, bv := some 0.80, spectralClass := some "G5III" },
  { name := some "Rigel", ra := some 5.24, dec := some (-8.20), mag := some 0.13, bv := some (-0.03), spectralClass := some "B8Iae" },
  { name := some "Procyon", ra := some 7.65, dec := some 5.23, mag := some 0.34, bv := some 0.42, spectralClass := some "F5IV-V" },
  { name := some "Betelgeuse", ra := some 5.92, dec := some 7.41, mag := some 0.50, bv := some 1.85, spectralClass := some "M1-2Ia-Iab" },
  { name := some "Achernar", ra := some 1.63, dec := some (-57.24), mag := some 0.46, bv := some (-0.19), spectralClass := some "B6Vep" },
  { name := some "Altair", ra := some 19.85, dec := some 8.87, mag := some 0.77, bv := some 0.22, spectralClass := some "A7V" }]

/-- The seven-letter spectral-class table used by the generator
(source line 161). -/
def spectralLetters : List String := ["O", "B", "A", "F", "G", "K", "M"]

/-- One generated star of the fallback catalog (source lines 153-162,
the body of the `for` loop at index `i`).  The five `Math.random()`
calls of iteration `i` are the stream values `g (5*i) .. g (5*i+4)`,
in the order the object literal evaluates them (ra, dec, mag, bv,
spectral class).  Array indexing with a negative or out-of-range index
yields `undefined` in JavaScript, hence the `Option` result for
`spectralClass`. -/
def genStar (g : ℕ → ℚ) (i : ℕ) : StarData :=
  { id := some (Sum.inl ((i : ℚ) + 10)),
    name := some ("Star-" ++ toString i),
    ra := some (g (5 * i) * 24),
    dec := some ((g (5 * i + 1) - 0.5) * 180),
    mag := some (g (5 * i + 2) * 8 - 1),
    bv := some ((g (5 * i + 3) - 0.3) * 2),
    spectralClass :=
      let j : ℤ := Int.floor (g (5 * i + 4) * 7)
      if j < 0 then none else spectralLetters.get? j.toNat }

/-- `generateSampleStarData` (source lines 133-166): the ten famous
stars followed by 2000 generated stars. -/
def generateSampleStarData (g : ℕ → ℚ) : List StarData :=
  famousStars ++ (List.range 2000).map (genStar g)

/-- The value of a named field of a parsed JSON object, as far as the
loader inspects it: absent, an array of records, or anything else
(the outcome of `parsed.stars && Array.isArray(parsed.stars)` only
depends on this distinction). -/
inductive JField
  | absent
  | jarray (xs : List StarData)
  | other
deriving DecidableEq

/-- The shape of a successfully parsed JSON document, as far as the
loader inspects it: a top-level array, an object (with its `stars` and
`catalog` fields), or any non-object value. -/
inductive ParsedJson
  | top (xs : List StarData)
  | object (stars catalog : JField)
  | nonObject
deriving DecidableEq

/-- The outcome of the `window.fs.readFile` + `JSON.parse` step
feeding the loader: the file capability is missing, `JSON.parse`
threw, or a parsed document. -/
inductive ReadResult
  | noFileSystem
  | malformed
  | parsed (doc : ParsedJson)
deriving DecidableEq

/-- The shape dispatch of `loadStarData` (source lines 183-191):
a bare array is taken as is, otherwise the `stars` field is tried,
then the `catalog` field; everything else is invalid (the code throws
`Invalid JSON structure`, caught by the inner `catch`). -/
def extractCatalog : ParsedJson → Option (List StarData)
  | ParsedJson.top xs => some xs
  | ParsedJson.object (JField.jarray xs) _ => some xs
  | ParsedJson.object _ (JField.jarray xs) => some xs
  | ParsedJson.object _ _ => none
  | ParsedJson.nonObject => none

/-- `loadStarData` (source lines 169-211).  Every failure of the read,
parse or shape dispatch is caught by the inner `catch`, which
substitutes the generated sample catalog; line 202 then reports
`starData.length` via `setStarCount`.  The function returns the pair
(catalog, reported count). -/
def loadStarData (g : ℕ → ℚ) (input : ReadResult) : List StarData × ℕ :=
  let starData :=
    match input with
    | ReadResult.noFileSystem => generateSampleStarData g
    | ReadResult.malformed => generateSampleStarData g
    | ReadResult.parsed doc =>
      match extractCatalog doc with
      | some xs => xs
      | none => generateSampleStarData g
  (starData, starData.length)

/-- The read outcomes on which the loader falls back to the generated
catalog: missing capability, malformed JSON, or a parsed document of
invalid shape. -/
def loadFails : ReadResult → Prop
  | ReadResult.noFileSystem => True
  | ReadResult.malformed => True
  | ReadResult.parsed doc => extractCatalog doc = none

/-- The constant-zero random stream, a concrete valid instance of
`Math.random()` outputs (every value lies in `[0, 1)`). -/
def gZero : ℕ → ℚ := fun _ => 0

/-- The distance actually used by the scene builder (source line 286):
`star.distance || 50 + Math.random() * 200`.  A JavaScript `||` takes
the right operand when the left is falsy, i.e. absent or `0` (for a
number field); `r` is the `Math.random()` draw. -/
def resolveDistance (d : Option ℚ) (r : ℚ) : ℚ :=
  match d with
  | some q => if q = 0 then 50 + r * 200 else q
  | none => 50 + r * 200

/-- The position resolution of the scene builder (source lines
279-295): direct cartesian coordinates when all of x, y, z are present;
otherwise the astronomical conversion when ra and dec are present
(with the falsy-distance fallback); otherwise a random point in a
1000-unit cube.  `rDist rx ry rz` are the potential random draws. -/
noncomputable def starPosition (star : StarData) (rDist rx ry rz : ℚ) : ℝ × ℝ × ℝ :=
  match star.x, star.y, star.z with
  | some x, some y, some z => ((x : ℝ), (y : ℝ), (z : ℝ))
  | _, _, _ =>
    match star.ra, star.dec with
    | some ra, some dec =>
      astronomicalToCartesian (ra : ℝ) (dec : ℝ) ((resolveDistance star.distance rDist : ℚ) : ℝ)
    | _, _ => (((rx : ℝ) - 0.5) * 1000, ((ry : ℝ) - 0.5) * 1000, ((rz : ℝ) - 0.5) * 1000)

/-- The slice of the mutable controls record (source lines 24-56)
acted on by the mouse and wheel handlers. -/
structure ControlState where
  mouseDown : Bool
  mouseX : ℝ
  mouseY : ℝ
  targetRotationX : ℝ
  targetRotationY : ℝ
  zoom : ℝ
  targetZoom : ℝ

/-- The initial controls record (source lines 40-56). -/
noncomputable def initControls : ControlState :=
  { mouseDown := false, mouseX := 0, mouseY := 0,
    targetRotationX := 0, targetRotationY := 0,
    zoom := 500, targetZoom := 500 }

/-- A mouse or wheel event, carrying the client coordinates
(for mouse events) or the wheel delta. -/
inductive InputEvent
  | mouseDownEvt (cx cy : ℝ)
  | mouseUpEvt
  | mouseMoveEvt (cx cy : ℝ)
  | wheelEvt (deltaY : ℝ)

/-- The event handlers `handleMouseDown` (lines 458-463),
`handleMouseUp` (465-467), the drag branch of `handleMouseMove`
(480-492) and `handleWheel` (508-515), as one transition function on
the control state. -/
noncomputable def applyEvent (c : ControlState) : InputEvent → ControlState
  | InputEvent.mouseDownEvt cx cy =>
    { c with mouseDown := true, mouseX := cx, mouseY := cy }
  | InputEvent.mouseUpEvt => { c with mouseDown := false }
  | InputEvent.mouseMoveEvt cx cy =>
    if c.mouseDown then
      let deltaX := cx - c.mouseX
      let deltaY := cy - c.mouseY
      let tY := c.targetRotationY + deltaX * 0.01
      let tX := c.targetRotationX + deltaY * 0.01
      { c with targetRotationY := tY,
               targetRotationX := max (-(Real.pi / 2)) (min (Real.pi / 2) tX),
               mouseX := cx, mouseY := cy }
    else c
  | InputEvent.wheelEvt deltaY =>
    let zoomSpeed := c.zoom * 0.1
    let tz := c.targetZoom + (if 0 < deltaY then zoomSpeed else -zoomSpeed)
    { c with targetZoom := max 10 (min 2000 tz) }

/-- The invariant claimed for the targets: zoom target in `[10, 2000]`,
vertical rotation target in `[-π/2, π/2]`. -/
def ControlInv (c : ControlState) : Prop :=
  10 ≤ c.targetZoom ∧ c.targetZoom ≤ 2000 ∧
    -(Real.pi / 2) ≤ c.targetRotationX ∧ c.targetRotationX ≤ Real.pi / 2

/-- Squared euclidean norm of a velocity vector.  The code compares
`velocity.length() < 0.1`; for a nonnegative radicand this is
equivalent to the squared comparison `normSq < 0.01` used below. -/
def normSq (v : ℚ × ℚ × ℚ) : ℚ := v.1 ^ 2 + v.2.1 ^ 2 + v.2.2 ^ 2

/-- One frame of the no-input deceleration branch (source lines
411-422): `velocity.multiplyScalar(0.9)`, then snap to the exact zero
vector when `velocity.length() < 0.1`. -/
def decayStep (v : ℚ × ℚ × ℚ) : ℚ × ℚ × ℚ :=
  let w : ℚ × ℚ × ℚ := (0.9 * v.1, 0.9 * v.2.1, 0.9 * v.2.2)
  if normSq w < 0.01 then (0, 0, 0) else w

/-- An explicit frame bound, as a function of the (squared) initial
magnitude, within which the deceleration reaches the exact zero
vector. -/
def decayBound (v : ℚ × ℚ × ℚ) : ℕ :=
  max 1 (Nat.ceil ((8100 / 19 : ℚ) * normSq v))

/-! ## Helper lemmas -/

lemma generateSampleStarData_length (g : ℕ → ℚ) :
    (generateSampleStarData g).length = 2010 := by
  simp [generateSampleStarData, famousStars]

lemma generateSampleStarData_ne_nil (g : ℕ → ℚ) :
    generateSampleStarData g ≠ [] := by
  intro h
  have h2 := generateSampleStarData_length g
  rw [h] at h2
  simp at h2

lemma loadStarData_eq_fallback (g : ℕ → ℚ) (input : ReadResult)
    (h : loadFails input) :
    loadStarData g input = (generateSampleStarData g, 2010) := by
  cases input with
  | noFileSystem => simp [loadStarData, generateSampleStarData_length]
  | malformed => simp [loadStarData, generateSampleStarData_length]
  | parsed doc =>
    have hd : extractCatalog doc = none := h
    simp [loadStarData, hd, generateSampleStarData_length]

lemma applyEvent_inv (c : ControlState) (e : InputEvent) (h : ControlInv c) :
    ControlInv (applyEvent c e) := by
  obtain ⟨h1, h2, h3, h4⟩ := h
  cases e with
  | mouseDownEvt cx cy => exact ⟨h1, h2, h3, h4⟩
  | mouseUpEvt => exact ⟨h1, h2, h3, h4⟩
  | mouseMoveEvt cx cy =>
    by_cases hm : c.mouseDown
    · simp only [applyEvent, if_pos hm]
      exact ⟨h1, h2, le_max_left _ _,
        max_le (by linarith [Real.pi_pos]) (min_le_left _ _)⟩
    · simp only [applyEvent, if_neg hm]
      exact ⟨h1, h2, h3, h4⟩
  | wheelEvt d =>
    exact ⟨le_max_left _ _, max_le (by norm_num) (min_le_left _ _), h3, h4⟩

lemma initControls_inv : ControlInv initControls := by
  have hp := Real.pi_pos
  refine ⟨?_, ?_, ?_, ?_⟩ <;> simp [initControls] <;> linarith

lemma foldl_applyEvent_inv (es : List InputEvent) :
    ∀ c : ControlState, ControlInv c → ControlInv (es.foldl applyEvent c) := by
  induction es with
  | nil => exact fun c h => h
  | cons e es ih =>
    intro c h
    rw [List.foldl_cons]
    exact ih _ (applyEvent_inv c e h)

lemma decayStep_def (v : ℚ × ℚ × ℚ) :
    decayStep v = if normSq (0.9 * v.1, 0.9 * v.2.1, 0.9 * v.2.2) < 0.01
      then (0, 0, 0) else (0.9 * v.1, 0.9 * v.2.1, 0.9 * v.2.2) := rfl

lemma normSq_nonneg (v : ℚ × ℚ × ℚ) : 0 ≤ normSq v := by
  unfold normSq
  positivity

lemma normSq_smul (v : ℚ × ℚ × ℚ) :
    normSq (0.9 * v.1, 0.9 * v.2.1, 0.9 * v.2.2) = (81 / 100) * normSq v := by
  simp [normSq]
  ring

lemma decayStep_eq_zero (v : ℚ × ℚ × ℚ) (h : (81 / 100) * normSq v < 1 / 100) :
    decayStep v = (0, 0, 0) := by
  rw [decayStep_def, if_pos]
  rw [normSq_smul]
  calc (81 / 100) * normSq v < 1 / 100 := h
    _ = 0.01 := by norm_num

lemma normSq_decayStep_le (v : ℚ × ℚ × ℚ) :
    normSq (decayStep v) ≤ (81 / 100) * normSq v := by
  rw [decayStep_def]
  split_ifs with h
  · have h2 := normSq_nonneg v
    norm_num [normSq]
    nlinarith
  · rw [normSq_smul]

lemma normSq_iterate_le (k : ℕ) (v : ℚ × ℚ × ℚ) :
    normSq (decayStep^[k] v) ≤ (81 / 100) ^ k * normSq v := by
  induction k with
  | zero => simp
  | succ k ih =>
    rw [Function.iterate_succ_apply']
    calc normSq (decayStep (decayStep^[k] v))
        ≤ (81 / 100) * normSq (decayStep^[k] v) := normSq_decayStep_le _
      _ ≤ (81 / 100) * ((81 / 100) ^ k * normSq v) := by nlinarith [ih]
      _ = (81 / 100) ^ (k + 1) * normSq v := by ring

lemma pow_decayBound_lt (v : ℚ × ℚ × ℚ) :
    (81 / 100 : ℚ) ^ decayBound v * normSq v < 1 / 100 := by
  have hm1 : 1 ≤ decayBound v := le_max_left _ _
  have hceil : ((8100 / 19 : ℚ) * normSq v) ≤ (decayBound v : ℚ) := by
    calc (8100 / 19 : ℚ) * normSq v
        ≤ (Nat.ceil ((8100 / 19 : ℚ) * normSq v) : ℚ) := Nat.le_ceil _
      _ ≤ (decayBound v : ℚ) := by
          exact_mod_cast le_max_right 1 (Nat.ceil ((8100 / 19 : ℚ) * normSq v))
  have hbern : 1 + (decayBound v : ℚ) * (19 / 81) ≤ (1 + 19 / 81) ^ decayBound v :=
    one_add_mul_le_pow (by norm_num) (decayBound v)
  have h10081 : (1 + 19 / 81 : ℚ) = 100 / 81 := by norm_num
  rw [h10081] at hbern
  have hPQ : (81 / 100 : ℚ) ^ decayBound v * (100 / 81) ^ decayBound v = 1 := by
    rw [← mul_pow]
    norm_num
  have h1 : normSq v * 100 < (100 / 81 : ℚ) ^ decayBound v := by nlinarith [hceil, hbern]
  have hPpos : (0 : ℚ) < (81 / 100) ^ decayBound v := by positivity
  have h2 : (81 / 100 : ℚ) ^ decayBound v * (normSq v * 100) <
      (81 / 100 : ℚ) ^ decayBound v * (100 / 81) ^ decayBound v :=
    (mul_lt_mul_left hPpos).mpr h1
  rw [hPQ] at h2
  nlinarith [h2]

/-! ## Claim theorems -/

/-- Claim C1: for every defined B-V input, `getStarColor` returns
exactly the fixed RGB triple of the band selected by the thresholds
-0.4, 0, 0.5, 1.0, 1.5, regardless of any spectral-class value also
present (and regardless of the random jitter draws). -/
theorem getStarColor_bv_bands (bv : ℚ) (sc : Option String) (r1 r2 r3 : ℚ) :
    (bv < -0.4 → getStarColor (some bv) sc r1 r2 r3 = ⟨0.6, 0.8, 1.0⟩) ∧
    (-0.4 ≤ bv → bv < 0 → getStarColor (some bv) sc r1 r2 r3 = ⟨0.8, 0.9, 1.0⟩) ∧
    (0 ≤ bv → bv < 0.5 → getStarColor (some bv) sc r1 r2 r3 = ⟨1.0, 1.0, 1.0⟩) ∧
    (0.5 ≤ bv → bv < 1.0 → getStarColor (some bv) sc r1 r2 r3 = ⟨1.0, 1.0, 0.7⟩) ∧
    (1.0 ≤ bv → bv < 1.5 → getStarColor (some bv) sc r1 r2 r3 = ⟨1.0, 0.7, 0.4⟩) ∧
    (1.5 ≤ bv → getStarColor (some bv) sc r1 r2 r3 = ⟨1.0, 0.5, 0.3⟩) := by
  simp only [getStarColor]
  split_ifs with h1 h2 h3 h4 h5 <;>
    refine ⟨fun ha => ?_, fun ha hb => ?_, fun ha hb => ?_, fun ha hb => ?_,
      fun ha hb => ?_, fun ha => ?_⟩ <;>
    first | rfl | (exfalso; linarith)

/-- Witness for C1: a concrete B-V value in the white band together
with a spectral class (`M`) whose own colour would differ. -/
theorem getStarColor_bv_bands_witness :
    getStarColor (some 0.25) (some "M") 0 0 0 = ⟨1.0, 1.0, 1.0⟩ ∧
    getStarColor (some 1.85) (some "O") 0 0 0 = ⟨1.0, 0.5, 0.3⟩ :=
  ⟨(getStarColor_bv_bands 0.25 (some "M") 0 0 0).2.2.1 (by norm_num) (by norm_num),
   (getStarColor_bv_bands 1.85 (some "O") 0 0 0).2.2.2.2.2 (by norm_num)⟩

/-- Claim C2: `magnitudeToSize` returns `max(0.5, 3.0 - (m+2)*0.5)`
for a present magnitude and `1.0` for an absent one; magnitude 4 gives
exactly 0.5 and magnitude -2 gives exactly 3.0. -/
theorem magnitudeToSize_spec :
    (∀ m : ℚ, magnitudeToSize (some m) = max 0.5 (3.0 - (m + 2) * 0.5)) ∧
    magnitudeToSize none = 1.0 ∧
    magnitudeToSize (some 4) = 0.5 ∧
    magnitudeToSize (some (-2)) = 3.0 := by
  refine ⟨fun m => rfl, rfl, ?_, ?_⟩ <;> norm_num [magnitudeToSize]

/-- Claim C3: `astronomicalToCartesian` computes the stated
spherical-to-cartesian formula with `raRad = ra*15*π/180` and
`decRad = dec*π/180`; RA=0, Dec=0 maps to `(d, 0, 0)` and RA=6, Dec=0
maps to `(0, 0, d)` (exactly, in the real-number model). -/
theorem astronomicalToCartesian_spec :
    (∀ ra dec d : ℝ, astronomicalToCartesian ra dec d =
      (d * Real.cos (dec * (Real.pi / 180)) * Real.cos (ra * 15 * (Real.pi / 180)),
       d * Real.sin (dec * (Real.pi / 180)),
       d * Real.cos (dec * (Real.pi / 180)) * Real.sin (ra * 15 * (Real.pi / 180)))) ∧
    (∀ d : ℝ, astronomicalToCartesian 0 0 d = (d, 0, 0)) ∧
    (∀ d : ℝ, astronomicalToCartesian 6 0 d = (0, 0, d)) := by
  refine ⟨fun ra dec d => rfl, fun d => ?_, fun d => ?_⟩
  · simp [astronomicalToCartesian]
  · have h : (6 : ℝ) * 15 * (Real.pi / 180) = Real.pi / 2 := by ring
    simp [astronomicalToCartesian, h, Real.cos_pi_div_two, Real.sin_pi_div_two]

/-- Claim C4: on every failing read outcome (missing file capability,
malformed JSON, or invalid shape) the loader returns the generated
fallback catalog of exactly 2010 records, reported as such: the 10
hardcoded famous stars followed by the 2000 generated entries. -/
theorem loadStarData_fallback (g : ℕ → ℚ) (input : ReadResult)
    (h : loadFails input) :
    loadStarData g input = (generateSampleStarData g, 2010) ∧
    generateSampleStarData g = famousStars ++ (List.range 2000).map (genStar g) ∧
    famousStars.length = 10 ∧
    ((List.range 2000).map (genStar g)).length = 2000 :=
  ⟨loadStarData_eq_fallback g input h, rfl, rfl, by simp⟩

/-- Witness for C4: the missing-capability outcome under the concrete
all-zero random stream. -/
theorem loadStarData_fallback_witness :
    loadStarData gZero ReadResult.noFileSystem = (generateSampleStarData gZero, 2010) ∧
    generateSampleStarData gZero = famousStars ++ (List.range 2000).map (genStar gZero) ∧
    famousStars.length = 10 ∧
    ((List.range 2000).map (genStar gZero)).length = 2000 :=
  loadStarData_fallback gZero ReadResult.noFileSystem trivial

/-- Claim C5 (refuted, code bug): the generator draws
`bv = (Math.random() - 0.3) * 2`, whose range is `[-0.6, 1.4)`, not
the `[-0.3, 1.7]` stated by the claim and by the code comment on the
same line.  Under the valid all-zero random stream the first generated
entry has B-V exactly -0.6, which is below -0.3. -/
theorem genStar_bv_below_range :
    (∀ n, 0 ≤ gZero n ∧ gZero n < 1) ∧
    (genStar gZero 0).bv = some (-0.6) ∧
    ((-0.6 : ℚ) < -0.3) :=
  ⟨fun n => by norm_num [gZero], by norm_num [genStar, gZero], by norm_num⟩

/-- Claim C6: the loader accepts a `{ catalog: [...] }` document and a
`{ stars: [...] }` document with the same records identically to a
bare top-level array, reporting the record count in each case. -/
theorem loadStarData_shapes (g : ℕ → ℚ) (xs : List StarData) :
    loadStarData g (ReadResult.parsed (ParsedJson.top xs)) = (xs, xs.length) ∧
    loadStarData g (ReadResult.parsed (ParsedJson.object (JField.jarray xs) JField.absent)) = (xs, xs.length) ∧
    loadStarData g (ReadResult.parsed (ParsedJson.object JField.absent (JField.jarray xs))) = (xs, xs.length) :=
  ⟨rfl, rfl, rfl⟩

/-- Claim C7: starting from the initial control state (target zoom 500,
target vertical rotation 0), after any finite sequence of mouse and
wheel events the zoom target stays in `[10, 2000]` and the vertical
rotation target stays in `[-π/2, π/2]`. -/
theorem controls_targets_clamped (es : List InputEvent) :
    10 ≤ (es.foldl applyEvent initControls).targetZoom ∧
    (es.foldl applyEvent initControls).targetZoom ≤ 2000 ∧
    -(Real.pi / 2) ≤ (es.foldl applyEvent initControls).targetRotationX ∧
    (es.foldl applyEvent initControls).targetRotationX ≤ Real.pi / 2 :=
  foldl_applyEvent_inv es initControls initControls_inv

/-- Claim C8: with no movement key held, iterating the per-frame decay
update drives any initial velocity to the exact zero vector within
`decayBound v` frames, an explicit bound computed from the (squared)
initial magnitude. -/
theorem velocity_decays_to_zero (v : ℚ × ℚ × ℚ) :
    decayStep^[decayBound v] v = (0, 0, 0) := by
  obtain ⟨k, hk⟩ : ∃ k, decayBound v = k + 1 := by
    have h1 : 1 ≤ decayBound v := le_max_left _ _
    exact ⟨decayBound v - 1, by omega⟩
  rw [hk, Function.iterate_succ_apply']
  apply decayStep_eq_zero
  have hiter := normSq_iterate_le k v
  have hkey : (81 / 100 : ℚ) ^ (k + 1) * normSq v < 1 / 100 := by
    rw [← hk]
    exact pow_decayBound_lt v
  calc (81 / 100) * normSq (decayStep^[k] v)
      ≤ (81 / 100) * ((81 / 100) ^ k * normSq v) := by nlinarith [hiter]
    _ = (81 / 100) ^ (k + 1) * normSq v := by ring
    _ < 1 / 100 := hkey

/-- Counterexample to claim C9 as stated: a successful read of a bare
empty array is an accepted shape, and the system then ends up with an
empty catalog (count 0), so loading does not always produce a
non-empty catalog. -/
theorem loadStarData_empty_catalog :
    loadStarData gZero (ReadResult.parsed (ParsedJson.top [])) = ([], 0) := rfl

/-- Claim C9 as amended: loading is total (never propagates a failure);
every failing outcome yields the non-empty 2010-record fallback, and
every successful outcome yields exactly the records of the accepted
shape (which are empty only if the file array itself is empty). -/
theorem loadStarData_total (g : ℕ → ℚ) (input : ReadResult) :
    (loadFails input →
      loadStarData g input = (generateSampleStarData g, 2010) ∧
      generateSampleStarData g ≠ []) ∧
    (∀ doc xs, input = ReadResult.parsed doc → extractCatalog doc = some xs →
      loadStarData g input = (xs, xs.length)) := by
  constructor
  · intro h
    exact ⟨loadStarData_eq_fallback g input h, generateSampleStarData_ne_nil g⟩
  · rintro doc xs rfl hx
    simp [loadStarData, hx]

/-- Witness for the amended C9: a concrete failing outcome (missing
capability) and a concrete successful outcome (a one-record array). -/
theorem loadStarData_total_witness :
    (loadStarData gZero ReadResult.noFileSystem = (generateSampleStarData gZero, 2010) ∧
      generateSampleStarData gZero ≠ []) ∧
    loadStarData gZero (ReadResult.parsed (ParsedJson.top [{}])) = ([{}], 1) :=
  ⟨(loadStarData_total gZero ReadResult.noFileSystem).1 trivial,
   (loadStarData_total gZero (ReadResult.parsed (ParsedJson.top [{}]))).2 _ [{}] rfl rfl⟩

/-- Claim C10: a record with ra/dec present and distance 0 is not
placed at distance 0: the falsy check substitutes `50 + r*200` with
`r` the random draw (offset in `[0, 200)` for `r` in `[0, 1)`),
exactly as if the distance were absent, and any nonzero distance is
used as stated. -/
theorem starPosition_zero_distance
    (idv : Option (ℚ ⊕ String)) (nm : Option String) (ra dec : ℚ)
    (mag bv : Option ℚ) (sc : Option String) (rDist rx ry rz : ℚ) :
    (starPosition ⟨idv, nm, some ra, some dec, mag, bv, some 0, none, none, none, sc⟩ rDist rx ry rz =
      starPosition ⟨idv, nm, some ra, some dec, mag, bv, none, none, none, none, sc⟩ rDist rx ry rz) ∧
    (resolveDistance (some 0) rDist = 50 + rDist * 200) ∧
    (0 ≤ rDist → rDist < 1 →
      0 ≤ resolveDistance (some 0) rDist - 50 ∧ resolveDistance (some 0) rDist - 50 < 200) ∧
    (∀ q : ℚ, q ≠ 0 →
      starPosition ⟨idv, nm, some ra, some dec, mag, bv, some q, none, none, none, sc⟩ rDist rx ry rz =
        astronomicalToCartesian (ra : ℝ) (dec : ℝ) ((q : ℚ) : ℝ)) := by
  refine ⟨?_, ?_, fun h0 h1 => ?_, fun q hq => ?_⟩
  · simp [starPosition, resolveDistance]
  · simp [resolveDistance]
  · have h : resolveDistance (some 0) rDist = 50 + rDist * 200 := by
      simp [resolveDistance]
    rw [h]
    constructor <;> nlinarith
  · simp [starPosition, resolveDistance, hq]

/-- Witness for C10: a concrete record at RA 3h, Dec 10 degrees with
distance 0 (and with distance 7). -/
theorem starPosition_zero_distance_witness :
    (starPosition ⟨none, none, some 3, some 10, none, none, some 0, none, none, none, none⟩ (1/2) 0 0 0 =
      starPosition ⟨none, none, some 3, some 10, none, none, none, none, none, none, none⟩ (1/2) 0 0 0) ∧
    (0 ≤ resolveDistance (some 0) (1/2) - 50 ∧ resolveDistance (some 0) (1/2) - 50 < 200) ∧
    (starPosition ⟨none, none, some 3, some 10, none, none, some 7, none, none, none, none⟩ (1/2) 0 0 0 =
      astronomicalToCartesian ((3 : ℚ) : ℝ) ((10 : ℚ) : ℝ) ((7 : ℚ) : ℝ)) := by
  obtain ⟨ha, hb, hc, hd⟩ := starPosition_zero_distance none none 3 10 none none none (1/2) 0 0 0
  exact ⟨ha, hc (by norm_num) (by norm_num), hd 7 (by norm_num)⟩

end Cosmos

